import Mathlib

/-!
Verification of the Pelican director's server-ad and request-steering
subsystem (director/advertise.go, director/director_api.go) against its
natural-language specification.  Go structures are shallowly embedded as
Lean structures; Go maps become association lists over `String` keys;
external library calls (url.Parse, time.Parse, HTTP fetch, XML unmarshal,
Prometheus queries) become explicit function or result parameters.
-/

namespace Pelican

/-- server_structs.Capabilities: the five permission bits of a server or
namespace. -/
structure Capabilities where
  PublicReads : Bool
  Reads : Bool
  Writes : Bool
  Listings : Bool
  DirectReads : Bool
  deriving DecidableEq, Repr

/-- server_structs.ServerAd, restricted to the fields read or written by the
director code under study.  URLs are represented by their string form; the Go
field `Type` (a Lean keyword) is embedded as `SType`. -/
structure ServerAd where
  SType : String
  Name : String
  URL : String
  AuthURL : String
  WebURL : String
  Caps : Capabilities
  FromTopology : Bool
  IOLoad : Float
  deriving Repr

/-- server_structs.ServerType (Origin or Cache). -/
inductive ServerType where
  | OriginType
  | CacheType
  deriving DecidableEq, Repr

/-- The Go `ServerType.String()` method. -/
def ServerType.str : ServerType → String
  | .OriginType => "Origin"
  | .CacheType => "Cache"

/-- server_structs.TopoServer: one origin or cache entry of the topology
namespace manifest. -/
structure TopoServer where
  AuthEndpoint : String
  Endpoint : String
  Resource : String
  deriving DecidableEq, Repr

/-- Go's strings.HasPrefix, computed structurally on the character lists so
that it evaluates inside the kernel. -/
def strStartsWith (s pre : String) : Bool :=
  pre.data.isPrefixOf s.data

/-- director/advertise.go consolidateDupServerAd: consolidate two ServerAds
that share the same URL.  For all but the capability fields the existing ad
takes precedence; capability fields are OR-ed. -/
def consolidateDupServerAd (newAd existingAd : ServerAd) : ServerAd :=
  let consolidatedAd := existingAd
  let consolidatedAd := { consolidatedAd with Caps.DirectReads := existingAd.Caps.DirectReads || newAd.Caps.DirectReads }
  let consolidatedAd := { consolidatedAd with Caps.PublicReads := existingAd.Caps.PublicReads || newAd.Caps.PublicReads }
  let consolidatedAd := { consolidatedAd with Caps.Reads := existingAd.Caps.Reads || newAd.Caps.Reads }
  let consolidatedAd := { consolidatedAd with Caps.Writes := existingAd.Caps.Writes || newAd.Caps.Writes }
  let consolidatedAd := { consolidatedAd with Caps.Listings := existingAd.Caps.Listings || newAd.Caps.Listings }
  consolidatedAd

/-- director/advertise.go parseServerAdFromTopology: convert a topology
server entry into a Pelican ServerAd.  `parseUrl` stands for Go's
`url.Parse` (returning the parsed URL in string form, or `none` on error; on
error the Go code leaves the URL field at its zero value). -/
def parseServerAdFromTopology (parseUrl : String → Option String)
    (server : TopoServer) (serverType : ServerType) (caps : Capabilities) : ServerAd :=
  let sType := serverType.str
  -- Explicitly set to false for caches (PublicReads true); Reads stays at the
  -- Capabilities zero value (false) exactly as in the Go code.
  let adCaps : Capabilities :=
    if sType = ServerType.CacheType.str then
      { PublicReads := true, Reads := false, Writes := false, Listings := false, DirectReads := false }
    else caps
  let endpoint :=
    if strStartsWith server.Endpoint "http" then server.Endpoint
    else "http://" ++ server.Endpoint
  let urlStr :=
    match parseUrl endpoint with
    | some u => u
    | none => ""
  let authUrlStr :=
    if server.AuthEndpoint ≠ "" then
      let authEndpoint :=
        if strStartsWith server.AuthEndpoint "http" then server.AuthEndpoint
        else "https://" ++ server.AuthEndpoint
      match parseUrl authEndpoint with
      | some u => u
      | none => ""
    else ""
  { SType := sType
    Name := server.Resource
    URL := urlStr
    AuthURL := authUrlStr
    WebURL := ""
    Caps := adCaps
    FromTopology := true
    IOLoad := 0.0 }

/-! ### Association-list model of Go maps keyed by strings -/

/-- Go map lookup (first binding wins; insertion keeps keys unique). -/
def lookupStr {α : Type} : List (String × α) → String → Option α
  | [], _ => none
  | (k, v) :: rest, key => if k = key then some v else lookupStr rest key

/-- Go map assignment `m[key] = v`. -/
def insertStr {α : Type} : List (String × α) → String → α → List (String × α)
  | [], key, v => [(key, v)]
  | (k, w) :: rest, key, v =>
      if k = key then (k, v) :: rest else (k, w) :: insertStr rest key v

/-- Go map `delete(m, key)`. -/
def eraseStr {α : Type} : List (String × α) → String → List (String × α)
  | [], _ => []
  | (k, w) :: rest, key => if k = key then rest else (k, w) :: eraseStr rest key

/-! ### Filter Registry -/

/-- The director's `filterType` is a Go string type.  Its constants are
declared in director code not included under src/; modelled from the spec,
which names the states perm_filtered, temp_filtered, topo_filtered,
server_filtered, shutdown_filtered and temp_allowed (only distinctness of
the values matters to the code under study). -/
abbrev filterType := String

def permFiltered : filterType := "perm_filtered"

def tempFiltered : filterType := "temp_filtered"

def topoFiltered : filterType := "topo_filtered"

def serverFiltered : filterType := "server_filtered"

def shutdownFiltered : filterType := "shutdown_filtered"

def tempAllowed : filterType := "temp_allowed"

/-- The global `filteredServers` map of the director. -/
abbrev FilterMap := List (String × filterType)

/-- director/director_api.go checkFilter: whether a server is filtered out of
production, and the reason.  Faithful to the Go switch statement, including
the default branch that logs an unknown filterType and reports the server as
not filtered. -/
def checkFilter (filteredServers : FilterMap) (serverName : String) : Bool × filterType :=
  match lookupStr filteredServers serverName with
  | none => (false, "")
  | some status =>
    if status = permFiltered then (true, permFiltered)
    else if status = tempFiltered then (true, tempFiltered)
    else if status = topoFiltered then (true, topoFiltered)
    else if status = serverFiltered then (true, serverFiltered)
    else if status = shutdownFiltered then (true, shutdownFiltered)
    else if status = tempAllowed then (false, tempAllowed)
    else (false, "")

/-! ### Topology downtime import -/

/-- server_structs.Class of a downtime record. -/
inductive DowntimeClass where
  | SCHEDULED
  | UNSCHEDULED
  deriving DecidableEq, Repr

/-- server_structs.Severity of a downtime record. -/
inductive DowntimeSeverity where
  | Outage
  | Severe
  | IntermittentOutage
  | NoSignificantOutageExpected
  deriving DecidableEq, Repr

/-- server_structs.Downtime: a normalized downtime record (times in Unix
milliseconds). -/
structure Downtime where
  ServerName : String
  Class : DowntimeClass
  Severity : DowntimeSeverity
  Source : String
  StartTime : Int
  EndTime : Int
  Description : String
  CreatedAt : Int
  UpdatedAt : Int
  deriving DecidableEq, Repr

/-- One raw downtime record of the fetched topology XML feed. -/
structure TopoDowntime where
  ResourceName : String
  StartTime : String
  EndTime : String
  CreatedTime : String
  UpdateTime : String
  Class : String
  Severity : String
  Description : String
  deriving DecidableEq, Repr

/-- server_structs.TopoDowntimeInfo: the unmarshalled downtime feed, with the
current and future downtime lists flattened to their record lists. -/
structure TopoDowntimeInfo where
  CurrentDowntimes : List TopoDowntime
  FutureDowntimes : List TopoDowntime
  deriving DecidableEq, Repr

/-- The global `topologyDowntimes` map (server resource name to its downtime
records). -/
abbrev DowntimeMap := List (String × List Downtime)

/-- The switch over `downtime.Class` in updateDowntimeFromTopology; the
default branch warns and skips the record (`none`). -/
def parseDowntimeClass (s : String) : Option DowntimeClass :=
  if s = "SCHEDULED" then some .SCHEDULED
  else if s = "UNSCHEDULED" then some .UNSCHEDULED
  else none

/-- The switch over `downtime.Severity` in updateDowntimeFromTopology
(matching on string prefixes, in source order); the default branch warns and
skips the record. -/
def parseDowntimeSeverity (s : String) : Option DowntimeSeverity :=
  if strStartsWith s "Outage" then some .Outage
  else if strStartsWith s "Severe" then some .Severe
  else if strStartsWith s "Intermittent" then some .IntermittentOutage
  else if strStartsWith s "No" then some .NoSignificantOutageExpected
  else none

/-- Go `append(latest[name], rec)` followed by `latest[name] = ...`. -/
def appendDowntime (m : DowntimeMap) (name : String) (rec : Downtime) : DowntimeMap :=
  insertStr m name ((lookupStr m name).getD [] ++ [rec])

/-- The loop body of updateDowntimeFromTopology for one fetched record,
acting on the pair (filteredServers, latestTopologyDowntimes).  `parseT`
stands for Go's `time.Parse` with the fixed layout
"Jan 2, 2006 15:04 PM MST", returning Unix milliseconds; `currentTime` is
`time.Now()` in the same clock.  Note that the topo_filtered entry for a
currently-active record is written before the created/update timestamps and
the class/severity strings are examined, exactly as in the source. -/
def processTopoDowntime (parseT : String → Option Int) (currentTime : Int)
    (st : FilterMap × DowntimeMap) (downtime : TopoDowntime) : FilterMap × DowntimeMap :=
  match parseT downtime.StartTime with
  | none => st
  | some parsedStartDT =>
  match parseT downtime.EndTime with
  | none => st
  | some parsedEndDT =>
  if parsedEndDT > currentTime then
    let fs :=
      if parsedStartDT < currentTime then
        let origOpt := lookupStr st.1 downtime.ResourceName
        -- Go: if !(hasOriginalFilter && originalFilterType != tempAllowed)
        if origOpt.isSome && (origOpt.getD "" != tempAllowed) then st.1
        else insertStr st.1 downtime.ResourceName topoFiltered
      else st.1
    match parseT downtime.CreatedTime with
    | none => (fs, st.2)
    | some parsedCreatedTime =>
    match parseT downtime.UpdateTime with
    | none => (fs, st.2)
    | some parsedUpdateTime =>
    match parseDowntimeClass downtime.Class with
    | none => (fs, st.2)
    | some parsedClass =>
    match parseDowntimeSeverity downtime.Severity with
    | none => (fs, st.2)
    | some parsedSeverity =>
      let dtRecord : Downtime :=
        { ServerName := downtime.ResourceName
          Class := parsedClass
          Severity := parsedSeverity
          Source := "topology"
          StartTime := parsedStartDT
          EndTime := parsedEndDT
          Description := downtime.Description
          CreatedAt := parsedCreatedTime
          UpdatedAt := parsedUpdateTime }
      (fs, appendDowntime st.2 downtime.ResourceName dtRecord)
  else st

/-- The purge loop of updateDowntimeFromTopology: remove every
filteredServers entry whose state is topoFiltered. -/
def purgeTopoFiltered (filteredServers : FilterMap) : FilterMap :=
  filteredServers.filter (fun kv => kv.2 ≠ topoFiltered)

/-- A fetched downtime record that is currently active: both of its start
and end timestamps parse and its interval contains the current time. -/
def activeRecord (parseT : String → Option Int) (currentTime : Int) (d : TopoDowntime) : Prop :=
  ∃ s e, parseT d.StartTime = some s ∧ parseT d.EndTime = some e
    ∧ e > currentTime ∧ s < currentTime

/-! ### The director's mutable state and the topology importer -/

/-- server_structs.TokenGen. -/
structure TokenGen where
  Strategy : String
  VaultServer : String
  MaxScopeDepth : Nat
  CredentialIssuer : String
  deriving DecidableEq, Repr

/-- server_structs.TokenIssuer. -/
structure TokenIssuer where
  BasePaths : List String
  RestrictedPaths : List String
  IssuerUrl : String
  deriving DecidableEq, Repr

/-- server_structs.NamespaceAdV2, restricted to the fields written by
AdvertiseOSDF. -/
structure NamespaceAdV2 where
  Path : String
  Caps : Capabilities
  Generation : List TokenGen
  Issuer : List TokenIssuer
  FromTopology : Bool
  deriving DecidableEq, Repr

/-- server_structs.Advertisement: a ServerAd together with its namespace
ads. -/
structure Advertisement where
  ServerAd : ServerAd
  NamespaceAds : List NamespaceAdV2
  deriving Repr

/-- The serverAds TTL store viewed as a map from serverAd.URL.String() to the
advertisement. -/
abbrev AdMap := List (String × Advertisement)

/-- The director state mutated by the topology importer: the serverAds store,
the filteredServers map and the topologyDowntimes map. -/
structure DirectorState where
  serverAds : AdMap
  filteredServers : FilterMap
  topologyDowntimes : DowntimeMap

/-- The state-transforming part of director/advertise.go
updateDowntimeFromTopology, entered only after the downtime feed has been
fetched and unmarshalled: purge all topoFiltered entries, then fold the
per-record loop over current and future downtimes, and overwrite
topologyDowntimes with the newly computed map. -/
def updateDowntimeFromTopologyCore (parseT : String → Option Int) (currentTime : Int)
    (downtimeInfo : TopoDowntimeInfo) (st : DirectorState) : DirectorState :=
  let fs0 := purgeTopoFiltered st.filteredServers
  let fetchedTopologyDowntimes := downtimeInfo.CurrentDowntimes ++ downtimeInfo.FutureDowntimes
  let res := fetchedTopologyDowntimes.foldl (processTopoDowntime parseT currentTime) (fs0, [])
  { st with filteredServers := res.1, topologyDowntimes := res.2 }

/-- director/advertise.go updateDowntimeFromTopology.  `urlOk` stands for the
success of url.Parse on the configured downtime URL, `fetchResult` for the
HTTP fetch of the feed, and `unmarshal` for xml.Unmarshal; each failure
returns an error before the state is touched.  The result pairs the Go error
return with the post-state. -/
def updateDowntimeFromTopology (urlOk : Bool) (fetchResult : Except String String)
    (unmarshal : String → Except String TopoDowntimeInfo)
    (parseT : String → Option Int) (currentTime : Int)
    (st : DirectorState) : Except String Unit × DirectorState :=
  if urlOk = false then
    (.error "encountered an invalid URL when parsing configured topology downtime URL", st)
  else
    match fetchResult with
    | .error e => (.error ("failed to fetch topology downtime: " ++ e), st)
    | .ok body =>
      match unmarshal body with
      | .error e => (.error ("failed to unmarshal topology downtime XML: " ++ e), st)
      | .ok downtimeInfo => (.ok (), updateDowntimeFromTopologyCore parseT currentTime downtimeInfo st)

/-- The CredentialGeneration block of a topology namespace. -/
structure CredentialGeneration where
  Issuer : String
  Strategy : String
  VaultServer : String
  MaxScopeDepth : Int
  deriving DecidableEq, Repr

/-- One scitokens entry of a topology namespace. -/
structure Scitoken where
  Issuer : String
  BasePath : List String
  Restricted : List String
  deriving DecidableEq, Repr

/-- One namespace of the topology JSON manifest, restricted to the fields
read by AdvertiseOSDF. -/
structure TopoNamespace where
  Path : String
  UseTokenOnRead : Bool
  ReadHTTPS : Bool
  WritebackHost : String
  DirlistHost : String
  CredentialGeneration : CredentialGeneration
  Scitokens : List Scitoken
  Origins : List TopoServer
  Caches : List TopoServer
  deriving DecidableEq, Repr

/-- server_structs.TopologyNamespacesJSON. -/
structure TopologyNamespacesJSON where
  Namespaces : List TopoNamespace
  deriving DecidableEq, Repr

/-- The duplicate-URL handling of AdvertiseOSDF for one parsed server ad:
append the namespace ad and consolidate capabilities when the URL is already
mapped, otherwise create a new entry. -/
def upsertTopologyAd (m : AdMap) (newAd : ServerAd) (nsAd : NamespaceAdV2) : AdMap :=
  match lookupStr m newAd.URL with
  | some existingAd =>
      insertStr m newAd.URL
        { ServerAd := consolidateDupServerAd newAd existingAd.ServerAd
          NamespaceAds := existingAd.NamespaceAds ++ [nsAd] }
  | none => insertStr m newAd.URL { ServerAd := newAd, NamespaceAds := [nsAd] }

/-- The body of AdvertiseOSDF's loop over namespaces, acting on the
accumulator (tGen, originAdMap, cacheAdMap).  Note that `tGen` is declared
outside the loop in the source and therefore carries over from one namespace
to the next. -/
def processTopoNamespace (parseUrl : String → Option String)
    (disableOrigins disableCaches : Bool)
    (acc : TokenGen × AdMap × AdMap) (ns : TopoNamespace) : TokenGen × AdMap × AdMap :=
  let requireToken := ns.UseTokenOnRead
  let credParsed :=
    if requireToken then (parseUrl ns.CredentialGeneration.Issuer).map some
    else some none
  match credParsed with
  | none => acc -- invalid credential issuer URL: warn and `continue`
  | some credOpt =>
    let tGen :=
      match credOpt with
      | some credIssuer =>
          { Strategy := ns.CredentialGeneration.Strategy
            VaultServer := ns.CredentialGeneration.VaultServer
            MaxScopeDepth := ns.CredentialGeneration.MaxScopeDepth.toNat
            CredentialIssuer := credIssuer }
      | none => acc.1
    let tokenIssuers : List TokenIssuer :=
      if requireToken then
        ns.Scitokens.filterMap (fun scitok =>
          (parseUrl scitok.Issuer).map (fun issuer =>
            { BasePaths := scitok.BasePath
              RestrictedPaths := scitok.Restricted
              IssuerUrl := issuer }))
      else []
    let write := ns.WritebackHost ≠ ""
    let listings := ns.DirlistHost ≠ ""
    let caps : Capabilities :=
      { PublicReads := !ns.UseTokenOnRead
        Reads := ns.ReadHTTPS
        Writes := write
        Listings := listings
        DirectReads := true }
    let nsAd : NamespaceAdV2 :=
      { Path := ns.Path
        Caps := caps
        Generation := [tGen]
        Issuer := tokenIssuers
        FromTopology := true }
    let originAdMap :=
      if !disableOrigins then
        ns.Origins.foldl (fun m origin =>
          upsertTopologyAd m (parseServerAdFromTopology parseUrl origin .OriginType caps) nsAd) acc.2.1
      else acc.2.1
    let cacheAdMap :=
      if !disableCaches then
        ns.Caches.foldl (fun m cache =>
          upsertTopologyAd m
            (parseServerAdFromTopology parseUrl cache .CacheType
              { PublicReads := false, Reads := false, Writes := false, Listings := false, DirectReads := false })
            nsAd) acc.2.2
      else acc.2.2
    (tGen, originAdMap, cacheAdMap)

/-- Modelled from the spec: recordAd (declared in director code not under
src/) upserts an advertisement into the serverAds store, keyed by the server
URL. -/
def recordAd (ads : AdMap) (ad : Advertisement) : AdMap :=
  insertStr ads ad.ServerAd.URL ad

/-- director/advertise.go AdvertiseOSDF.  `namespacesResult` stands for
server_utils.GetTopologyJSON; a fetch failure returns an error before any
state is touched.  A downtime-update failure is logged but not fatal. -/
def AdvertiseOSDF (namespacesResult : Except String TopologyNamespacesJSON)
    (disableDowntime disableOrigins disableCaches : Bool)
    (dtUrlOk : Bool) (dtFetch : Except String String)
    (dtUnmarshal : String → Except String TopoDowntimeInfo)
    (parseUrl : String → Option String) (parseT : String → Option Int) (currentTime : Int)
    (st : DirectorState) : Except String Unit × DirectorState :=
  match namespacesResult with
  | .error e => (.error ("Failed to get topology JSON: " ++ e), st)
  | .ok namespaces =>
    let st1 :=
      if !disableDowntime then
        (updateDowntimeFromTopology dtUrlOk dtFetch dtUnmarshal parseT currentTime st).2
      else st
    let maps := namespaces.Namespaces.foldl
      (processTopoNamespace parseUrl disableOrigins disableCaches)
      ({ Strategy := "", VaultServer := "", MaxScopeDepth := 0, CredentialIssuer := "" }, [], [])
    let ads1 := maps.2.1.foldl (fun ads kv => recordAd ads kv.2) st1.serverAds
    let ads2 := maps.2.2.foldl (fun ads kv => recordAd ads kv.2) ads1
    (.ok (), { st1 with serverAds := ads2 })

/-! ### The serverAds TTL cache and the I/O load scraper -/

/-- Modelled from the ttlcache library semantics: a cache item carries its
value and its TTL expiry time. -/
structure CacheItem (V : Type) where
  value : V
  expiresAt : Int
  deriving Repr

/-- The serverAds ttlcache, with per-item expiry. -/
abbrev AdCache := List (String × CacheItem Advertisement)

/-- Modelled from the ttlcache library semantics: `Get` returns the item for
a key; when touch-on-hit is enabled the hit resets the item's expiry to
`now + ttl`, and `WithDisableTouchOnHit` leaves the cache untouched. -/
def cacheGet (c : AdCache) (key : String) (disableTouchOnHit : Bool)
    (now ttl : Int) : Option (CacheItem Advertisement) × AdCache :=
  match lookupStr c key with
  | none => (none, c)
  | some item =>
    if disableTouchOnHit then (some item, c)
    else (some item, insertStr c key { item with expiresAt := now + ttl })

/-- The Advertisement.SetIOLoad mutation seen through the cache: replace the
stored advertisement's IOLoad, leaving every other field and the expiry
untouched. -/
def cacheSetIOLoad : AdCache → String → Float → AdCache
  | [], _, _ => []
  | (k, it) :: rest, key, load =>
    if k = key then
      (k, { it with value := { it.value with ServerAd := { it.value.ServerAd with IOLoad := load } } })
        :: cacheSetIOLoad rest key load
    else (k, it) :: cacheSetIOLoad rest key load

/-- A label value of a Prometheus query-result row (`result.Metric` holds
arbitrary JSON values; the scraper type-asserts to string). -/
inductive PromVal where
  | str (s : String)
  | nonStr
  deriving DecidableEq, Repr

/-- One row of the Prometheus range-rate query result consumed by
LaunchServerIOQuery; `Value0` is `result.Values[0].Value`. -/
structure PromResult where
  Metric : List (String × PromVal)
  Value0 : String
  deriving DecidableEq, Repr

/-- The body of LaunchServerIOQuery's loop over query-result rows
(director/director_api.go): look the server up with
ttlcache.WithDisableTouchOnHit and set its IOLoad.  `parseFloat` stands for
strconv.ParseFloat. -/
def serverIOQueryStep (parseFloat : String → Option Float) (now ttl : Int)
    (c : AdCache) (result : PromResult) : AdCache :=
  match lookupStr result.Metric "server_url" with
  | none => c -- response does not contain server_url: skip
  | some serverUrlRaw =>
  match serverUrlRaw with
  | .nonStr => c -- invalid server_url: skip
  | .str serverUrl =>
    let ioDerivStr := result.Value0
    if ioDerivStr = "" then c -- empty I/O value: skip
    else
      match parseFloat ioDerivStr with
      | none => c -- not a float: skip
      | some ioDeriv =>
        let got := cacheGet c serverUrl true now ttl
        match got.1 with
        | none => got.2 -- server does not exist in the director: skip
        | some _ => cacheSetIOLoad got.2 serverUrl ioDeriv

/-- Projection used to state the scraper's frame property: forget the IOLoad
field of a cached advertisement. -/
def clearIOLoad (it : CacheItem Advertisement) : CacheItem Advertisement :=
  { it with value := { it.value with ServerAd := { it.value.ServerAd with IOLoad := 0.0 } } }

/-! ### The server-count metric hooks (hookServerAdsCache) -/

/-- The label triple of the pelican_director_server_count gauge:
(server_name, server_type, from_topology), the last via
strconv.FormatBool. -/
def adLabels (ad : Advertisement) : String × String × String :=
  (ad.ServerAd.Name, ad.ServerAd.SType, if ad.ServerAd.FromTopology then "true" else "false")

/-- A Prometheus gauge vector over the label triple. -/
abbrev Gauge := String × String × String → Int

/-- Gauge `Inc` on one label triple. -/
def gaugeInc (g : Gauge) (l : String × String × String) : Gauge :=
  fun x => if x = l then g x + 1 else g x

/-- Gauge `Dec` on one label triple. -/
def gaugeDec (g : Gauge) (l : String × String × String) : Gauge :=
  fun x => if x = l then g x - 1 else g x

/-- The serverAds store together with the pelican_director_server_count
gauge maintained by the hooks of hookServerAdsCache. -/
structure MetricState where
  store : AdMap
  gauge : Gauge

/-- The ttlcache events the hooks of hookServerAdsCache react to: insertion
of a new item and eviction of a present item. -/
inductive CacheEvent where
  | insertAd (key : String) (ad : Advertisement)
  | evictAd (key : String)

/-- One serverAds cache event together with the hooks registered by
hookServerAdsCache: an insertion of a new key stores the ad and increments
the gauge at the ad's label triple (a Set on a present key is an update, for
which ttlcache fires no insertion event, so only the value changes); an
eviction removes the ad and decrements the gauge at its label triple. -/
def serverCountStep (st : MetricState) : CacheEvent → MetricState
  | .insertAd key ad =>
    match lookupStr st.store key with
    | some _ => { st with store := insertStr st.store key ad }
    | none => { store := insertStr st.store key ad, gauge := gaugeInc st.gauge (adLabels ad) }
  | .evictAd key =>
    match lookupStr st.store key with
    | none => st
    | some ad => { store := eraseStr st.store key, gauge := gaugeDec st.gauge (adLabels ad) }

/-- Run a sequence of serverAds cache events through the hooks. -/
def serverCountRun (st : MetricState) (events : List CacheEvent) : MetricState :=
  events.foldl serverCountStep st

/-- The number of advertisements currently stored with a given label
triple. -/
def countLabel (store : AdMap) (l : String × String × String) : Nat :=
  (store.filter (fun kv => adLabels kv.2 = l)).length

/-- A sequence of cache events is well-formed when every insertion event is
for a key not currently in the store (ttlcache fires the insertion hook
exactly for new items; a Set on a present key is an update that fires no
hook). -/
def wfEvents : MetricState → List CacheEvent → Prop
  | _, [] => True
  | st, e :: rest =>
    (match e with
     | .insertAd key _ => lookupStr st.store key = none
     | .evictAd _ => True)
    ∧ wfEvents (serverCountStep st e) rest

/-- A concrete advertisement used to exercise the server-count hooks. -/
def adO1 : Advertisement :=
  { ServerAd :=
      { SType := "Origin", Name := "o1", URL := "https://o1", AuthURL := "",
        WebURL := "", Caps := ⟨true, true, false, false, true⟩,
        FromTopology := false, IOLoad := 0.0 },
    NamespaceAds := [] }

/-- Insert-then-evict event sequence for the ad above. -/
def evsO1 : List CacheEvent := [.insertAd "https://o1" adO1, .evictAd "https://o1"]

/-- The empty store with a zeroed gauge. -/
def stEmpty : MetricState := { store := [], gauge := fun _ => 0 }

/-! ### computePrefix (metrics/xrootd_metrics.go) -/

/-- A list of path components monitored by the XRootD metrics handler. -/
structure PathList where
  Paths : List String
  deriving DecidableEq, Repr

/-- Split a character list at every slash (the component split that Go's
`strings.Split(path, "/")` performs on a cleaned path). -/
def splitComponentsAux : List Char → List (List Char)
  | [] => [[]]
  | c :: cs =>
    let rest := splitComponentsAux cs
    if c = '/' then [] :: rest
    else
      match rest with
      | [] => [[c]]
      | r :: rs => (c :: r) :: rs

/-- Split a path string into its slash-separated components. -/
def splitSlash (s : String) : List String :=
  (splitComponentsAux s.data).map (fun l => String.mk l)

/-- Join strings with slashes. -/
def joinSlash : List String → String
  | [] => ""
  | [x] => x
  | x :: xs => x ++ "/" ++ joinSlash xs

/-- Modelled from the spec: the source of computePrefix
(metrics/xrootd_metrics.go) is not under src/ (only its test,
TestComputePaths, is).  The number of leading mount components matching the
object-path components consecutively, where "*" is a wildcard; matching
stops at the first mismatch. -/
def consecMatch : List String → List String → Nat
  | _, [] => 0
  | [], _ :: _ => 0
  | s :: ss, p :: ps => if p = "*" || p = s then 1 + consecMatch ss ps else 0

/-- Modelled from the spec: computePrefix (metrics/xrootd_metrics.go, not
under src/) computes the deepest consecutive match of the object path's
components against the configured mount prefix components, where ""
denotes root and "*" denotes a wildcard; mount lists longer than the object
path do not match, and a match depth of at most the root component yields
"/".  The seven cases of spec §4.7 / TestComputePaths are authoritative. -/
def computePrefix (inputPath : String) (monitoredPaths : List PathList) : String :=
  if monitoredPaths.isEmpty then "/"
  else
    let segments := splitSlash inputPath
    let maxlen := monitoredPaths.foldl
      (fun acc pl =>
        if pl.Paths.length > segments.length then acc
        else max acc (consecMatch segments pl.Paths)) 0
    if maxlen ≤ 1 then "/"
    else "/" ++ joinSlash ((segments.drop 1).take (maxlen - 1))

end Pelican

namespace Pelican

/-- C1: consolidateDupServerAd merges the five capability fields of two
URL-colliding ads by logical OR and keeps every non-capability field of the
existing (first-seen) ad. -/
theorem consolidateDupServerAd_or_caps_first_seen_wins (newAd existingAd : ServerAd) :
    (consolidateDupServerAd newAd existingAd).Caps.PublicReads = (existingAd.Caps.PublicReads || newAd.Caps.PublicReads)
    ∧ (consolidateDupServerAd newAd existingAd).Caps.Reads = (existingAd.Caps.Reads || newAd.Caps.Reads)
    ∧ (consolidateDupServerAd newAd existingAd).Caps.Writes = (existingAd.Caps.Writes || newAd.Caps.Writes)
    ∧ (consolidateDupServerAd newAd existingAd).Caps.Listings = (existingAd.Caps.Listings || newAd.Caps.Listings)
    ∧ (consolidateDupServerAd newAd existingAd).Caps.DirectReads = (existingAd.Caps.DirectReads || newAd.Caps.DirectReads)
    ∧ (consolidateDupServerAd newAd existingAd).SType = existingAd.SType
    ∧ (consolidateDupServerAd newAd existingAd).Name = existingAd.Name
    ∧ (consolidateDupServerAd newAd existingAd).URL = existingAd.URL
    ∧ (consolidateDupServerAd newAd existingAd).AuthURL = existingAd.AuthURL
    ∧ (consolidateDupServerAd newAd existingAd).WebURL = existingAd.WebURL
    ∧ (consolidateDupServerAd newAd existingAd).FromTopology = existingAd.FromTopology
    ∧ (consolidateDupServerAd newAd existingAd).IOLoad = existingAd.IOLoad := by
  refine ⟨rfl, rfl, rfl, rfl, rfl, rfl, rfl, rfl, rfl, rfl, rfl, rfl⟩

/-- C5: the seven (object path, mount components) cases of spec §4.7 and
TestComputePaths, each returning exactly the stated string. -/
theorem computePrefix_seven_cases :
    computePrefix "/foo" [⟨["", "*"]⟩] = "/foo"
    ∧ computePrefix "/foo" [⟨["", "baz"]⟩] = "/"
    ∧ computePrefix "/foo" [⟨["", ""]⟩] = "/"
    ∧ computePrefix "/foo" [⟨["", "foo"]⟩] = "/foo"
    ∧ computePrefix "/foo/bar/baz" [⟨["", "foo", "*", "baz"]⟩] = "/foo/bar/baz"
    ∧ computePrefix "/foo/bar/baz" [⟨["", "1"]⟩, ⟨["", "foo", "*", "baz"]⟩] = "/foo/bar/baz"
    ∧ computePrefix "/foo/bar/baz" [⟨["", "foo", "*", "*"]⟩] = "/foo/bar/baz" := by
  exact ⟨by decide, by decide, by decide, by decide, by decide, by decide, by decide⟩

/-- checkFilter unfolded at a known lookup result. -/
theorem checkFilter_of_lookup (fs : FilterMap) (serverName : String) (s : filterType)
    (h : lookupStr fs serverName = some s) :
    checkFilter fs serverName =
      (if s = permFiltered then (true, permFiltered)
       else if s = tempFiltered then (true, tempFiltered)
       else if s = topoFiltered then (true, topoFiltered)
       else if s = serverFiltered then (true, serverFiltered)
       else if s = shutdownFiltered then (true, shutdownFiltered)
       else if s = tempAllowed then (false, tempAllowed)
       else (false, "")) := by
  unfold checkFilter
  rw [h]

/-- C4: checkFilter depends only on the filteredServers map: the server is
excluded exactly when its entry is one of the five filtered states (with the
entry's state as the reason); a missing entry, a temp_allowed entry, or an
unrecognized state leaves the server not excluded. -/
theorem checkFilter_state_cases (fs : FilterMap) (serverName : String) :
    ((checkFilter fs serverName).1 = true ↔
      ∃ s, lookupStr fs serverName = some s ∧
        (s = permFiltered ∨ s = tempFiltered ∨ s = topoFiltered ∨ s = serverFiltered ∨ s = shutdownFiltered))
    ∧ (lookupStr fs serverName = none → checkFilter fs serverName = (false, ""))
    ∧ (∀ s, lookupStr fs serverName = some s →
        (s = permFiltered ∨ s = tempFiltered ∨ s = topoFiltered ∨ s = serverFiltered ∨ s = shutdownFiltered) →
        checkFilter fs serverName = (true, s))
    ∧ (lookupStr fs serverName = some tempAllowed → checkFilter fs serverName = (false, tempAllowed))
    ∧ (∀ s, lookupStr fs serverName = some s →
        s ≠ permFiltered → s ≠ tempFiltered → s ≠ topoFiltered → s ≠ serverFiltered →
        s ≠ shutdownFiltered → s ≠ tempAllowed →
        checkFilter fs serverName = (false, "")) := by
  refine ⟨⟨?_, ?_⟩, ?_, ?_, ?_, ?_⟩
  · intro htrue
    cases h : lookupStr fs serverName with
    | none =>
      unfold checkFilter at htrue
      rw [h] at htrue
      simp at htrue
    | some s =>
      refine ⟨s, rfl, ?_⟩
      rw [checkFilter_of_lookup fs serverName s h] at htrue
      by_cases h1 : s = permFiltered
      · exact Or.inl h1
      by_cases h2 : s = tempFiltered
      · exact Or.inr (Or.inl h2)
      by_cases h3 : s = topoFiltered
      · exact Or.inr (Or.inr (Or.inl h3))
      by_cases h4 : s = serverFiltered
      · exact Or.inr (Or.inr (Or.inr (Or.inl h4)))
      by_cases h5 : s = shutdownFiltered
      · exact Or.inr (Or.inr (Or.inr (Or.inr h5)))
      by_cases h6 : s = tempAllowed
      · rw [h6] at htrue
        exact absurd htrue (by decide)
      · simp [h1, h2, h3, h4, h5, h6] at htrue
  · rintro ⟨s, hs, hcase⟩
    rw [checkFilter_of_lookup fs serverName s hs]
    rcases hcase with h | h | h | h | h <;> subst h <;> decide
  · intro h
    unfold checkFilter
    rw [h]
  · intro s hs hcase
    rw [checkFilter_of_lookup fs serverName s hs]
    rcases hcase with h | h | h | h | h <;> subst h <;> decide
  · intro h
    rw [checkFilter_of_lookup fs serverName tempAllowed h]
    decide
  · intro s hs h1 h2 h3 h4 h5 h6
    rw [checkFilter_of_lookup fs serverName s hs]
    simp [h1, h2, h3, h4, h5, h6]

/-- C4 witness: checkFilter evaluated on a concrete registry holding a
permanently filtered server, a temp-allowed server and an entry with an
unrecognized state. -/
theorem checkFilter_state_cases_witness :
    checkFilter [("a", permFiltered), ("b", tempAllowed), ("c", "bogus")] "a" = (true, permFiltered)
    ∧ checkFilter [("a", permFiltered), ("b", tempAllowed), ("c", "bogus")] "b" = (false, tempAllowed)
    ∧ checkFilter [("a", permFiltered), ("b", tempAllowed), ("c", "bogus")] "c" = (false, "")
    ∧ checkFilter [("a", permFiltered), ("b", tempAllowed), ("c", "bogus")] "d" = (false, "") := by
  have t := checkFilter_state_cases [("a", permFiltered), ("b", tempAllowed), ("c", "bogus")]
  exact ⟨(t "a").2.2.1 permFiltered (by decide) (Or.inl rfl),
    (t "b").2.2.2.1 (by decide),
    (t "c").2.2.2.2 "bogus" (by decide) (by decide) (by decide) (by decide) (by decide) (by decide) (by decide),
    (t "d").2.1 (by decide)⟩

/-- C9: every cache ad produced by parseServerAdFromTopology has Writes,
Listings and DirectReads forced to false and PublicReads forced to true
regardless of the manifest capabilities, and every ad it produces (origin or
cache) has FromTopology true and IOLoad 0.0. -/
theorem parseServerAdFromTopology_cache_caps_forced
    (parseUrl : String → Option String) (server : TopoServer) (caps : Capabilities) :
    (parseServerAdFromTopology parseUrl server .CacheType caps).Caps.Writes = false
    ∧ (parseServerAdFromTopology parseUrl server .CacheType caps).Caps.Listings = false
    ∧ (parseServerAdFromTopology parseUrl server .CacheType caps).Caps.DirectReads = false
    ∧ (parseServerAdFromTopology parseUrl server .CacheType caps).Caps.PublicReads = true
    ∧ ∀ (serverType : ServerType) (caps2 : Capabilities),
        (parseServerAdFromTopology parseUrl server serverType caps2).FromTopology = true
        ∧ (parseServerAdFromTopology parseUrl server serverType caps2).IOLoad = 0.0 := by
  refine ⟨rfl, rfl, rfl, rfl, ?_⟩
  intro serverType caps2
  cases serverType <;> exact ⟨rfl, rfl⟩

/-- lookupStr after the cacheSetIOLoad map: only the entry at `key` has its
advertisement's IOLoad replaced. -/
theorem lookupStr_cacheSetIOLoad (c : AdCache) (key : String) (load : Float) (k : String) :
    lookupStr (cacheSetIOLoad c key load) k =
      (lookupStr c k).map (fun it =>
        if k = key then
          { it with value := { it.value with ServerAd := { it.value.ServerAd with IOLoad := load } } }
        else it) := by
  induction c with
  | nil => rfl
  | cons kv rest ih =>
    obtain ⟨k1, it1⟩ := kv
    by_cases h1 : k1 = key
    · subst h1
      by_cases h2 : k1 = k
      · subst h2
        simp [cacheSetIOLoad, lookupStr]
      · simp only [cacheSetIOLoad, if_pos rfl, lookupStr, if_neg h2, ih]
    · by_cases h2 : k1 = k
      · subst h2
        simp [cacheSetIOLoad, lookupStr, h1]
      · simp only [cacheSetIOLoad, if_neg h1, lookupStr, if_neg h2, ih]

/-- C8: one step of the I/O load scraper's result loop looks the ad up with
touch-on-hit disabled and therefore leaves every cached ad's TTL expiry
unchanged, and changes nothing but the IOLoad field of the matched ad. -/
theorem serverIOQueryStep_touch_free (parseFloat : String → Option Float)
    (now ttl : Int) (c : AdCache) (result : PromResult) :
    (∀ k, (lookupStr (serverIOQueryStep parseFloat now ttl c result) k).map (fun it => it.expiresAt)
        = (lookupStr c k).map (fun it => it.expiresAt))
    ∧ (∀ k, (lookupStr (serverIOQueryStep parseFloat now ttl c result) k).map clearIOLoad
        = (lookupStr c k).map clearIOLoad) := by
  unfold serverIOQueryStep
  cases hm : lookupStr result.Metric "server_url" with
  | none => exact ⟨fun k => rfl, fun k => rfl⟩
  | some raw =>
    cases raw with
    | nonStr => exact ⟨fun k => rfl, fun k => rfl⟩
    | str serverUrl =>
      by_cases hv : result.Value0 = ""
      · simp only [hv, if_pos rfl]
        exact ⟨fun k => rfl, fun k => rfl⟩
      · simp only [if_neg hv]
        cases hf : parseFloat result.Value0 with
        | none => exact ⟨fun k => rfl, fun k => rfl⟩
        | some ioDeriv =>
          unfold cacheGet
          cases hl : lookupStr c serverUrl with
          | none => exact ⟨fun k => rfl, fun k => rfl⟩
          | some item =>
            refine ⟨?_, ?_⟩
            · intro k
              show (lookupStr (cacheSetIOLoad c serverUrl ioDeriv) k).map _ = _
              rw [lookupStr_cacheSetIOLoad]
              cases lookupStr c k with
              | none => rfl
              | some it =>
                by_cases hk : k = serverUrl
                · simp only [Option.map, Option.bind, if_pos hk]
                · simp only [Option.map, Option.bind, if_neg hk]
            · intro k
              show (lookupStr (cacheSetIOLoad c serverUrl ioDeriv) k).map _ = _
              rw [lookupStr_cacheSetIOLoad]
              cases lookupStr c k with
              | none => rfl
              | some it =>
                by_cases hk : k = serverUrl
                · simp only [Option.map, Option.bind, if_pos hk]
                  rfl
                · simp only [Option.map, Option.bind, if_neg hk]

/-- C7: topology import failures are atomic.  A failed topology JSON fetch
makes AdvertiseOSDF return an error with the whole director state unchanged;
a failed downtime fetch, or a failed XML unmarshal, makes
updateDowntimeFromTopology return an error with the state unchanged. -/
theorem topology_import_failure_atomic
    (e : String) (ddt dor dca dtUrlOk : Bool) (dtFetch : Except String String)
    (unmarshal : String → Except String TopoDowntimeInfo)
    (parseUrl : String → Option String) (parseT : String → Option Int)
    (now : Int) (st : DirectorState) :
    AdvertiseOSDF (.error e) ddt dor dca dtUrlOk dtFetch unmarshal parseUrl parseT now st
      = (.error ("Failed to get topology JSON: " ++ e), st)
    ∧ updateDowntimeFromTopology true (.error e) unmarshal parseT now st
      = (.error ("failed to fetch topology downtime: " ++ e), st)
    ∧ (∀ body e2, unmarshal body = .error e2 →
        updateDowntimeFromTopology true (.ok body) unmarshal parseT now st
          = (.error ("failed to unmarshal topology downtime XML: " ++ e2), st)) := by
  refine ⟨rfl, rfl, ?_⟩
  intro body e2 h
  simp [updateDowntimeFromTopology, h]

/-- C7 witness: the three failure modes evaluated on concrete inputs. -/
theorem topology_import_failure_atomic_witness :
    AdvertiseOSDF (.error "conn refused") false false false true (.ok "<xml/>")
        (fun _ => .error "bad xml") (fun u => some u) (fun _ => none) 0
        { serverAds := [], filteredServers := [("a", permFiltered)], topologyDowntimes := [] }
      = (.error "Failed to get topology JSON: conn refused",
         { serverAds := [], filteredServers := [("a", permFiltered)], topologyDowntimes := [] })
    ∧ updateDowntimeFromTopology true (.error "timeout") (fun _ => .error "bad xml")
        (fun _ => none) 0
        { serverAds := [], filteredServers := [("a", permFiltered)], topologyDowntimes := [] }
      = (.error "failed to fetch topology downtime: timeout",
         { serverAds := [], filteredServers := [("a", permFiltered)], topologyDowntimes := [] })
    ∧ updateDowntimeFromTopology true (.ok "<xml/>") (fun _ => .error "bad xml")
        (fun _ => none) 0
        { serverAds := [], filteredServers := [("a", permFiltered)], topologyDowntimes := [] }
      = (.error "failed to unmarshal topology downtime XML: bad xml",
         { serverAds := [], filteredServers := [("a", permFiltered)], topologyDowntimes := [] }) := by
  have t := topology_import_failure_atomic "conn refused" false false false true (.ok "<xml/>")
    (fun _ => .error "bad xml") (fun u => some u) (fun _ => none) 0
    { serverAds := [], filteredServers := [("a", permFiltered)], topologyDowntimes := [] }
  have t2 := topology_import_failure_atomic "timeout" false false false true (.error "timeout")
    (fun _ => .error "bad xml") (fun u => some u) (fun _ => none) 0
    { serverAds := [], filteredServers := [("a", permFiltered)], topologyDowntimes := [] }
  exact ⟨t.1, t2.2.1, t.2.2 "<xml/>" "bad xml" rfl⟩

/-- Inserting a binding makes it the one that lookup finds. -/
theorem lookupStr_insertStr_self {α : Type} (m : List (String × α)) (key : String) (v : α) :
    lookupStr (insertStr m key v) key = some v := by
  induction m with
  | nil => simp [insertStr, lookupStr]
  | cons kv rest ih =>
    obtain ⟨k1, w⟩ := kv
    by_cases h : k1 = key
    · subst h
      simp [insertStr, lookupStr]
    · simp [insertStr, lookupStr, h, ih]

/-- The purge of topoFiltered entries preserves any binding whose state is
not topoFiltered. -/
theorem lookupStr_purgeTopoFiltered (fs : FilterMap) (name : String) (v : filterType)
    (h : lookupStr fs name = some v) (hv : v ≠ topoFiltered) :
    lookupStr (purgeTopoFiltered fs) name = some v := by
  induction fs with
  | nil => simp [lookupStr] at h
  | cons kv rest ih =>
    obtain ⟨k1, w⟩ := kv
    by_cases hk : k1 = name
    · subst hk
      rw [lookupStr, if_pos rfl] at h
      obtain rfl : w = v := by injection h
      simp [purgeTopoFiltered, List.filter_cons, hv, lookupStr]
    · rw [lookupStr, if_neg hk] at h
      by_cases hw : w = topoFiltered
      · simpa [purgeTopoFiltered, List.filter_cons, hw] using ih h
      · simpa [purgeTopoFiltered, List.filter_cons, hw, lookupStr, hk] using ih h

/-- Every entry surviving the purge has a state other than topoFiltered. -/
theorem mem_purgeTopoFiltered (fs : FilterMap) (kv : String × filterType)
    (h : kv ∈ purgeTopoFiltered fs) : kv.2 ≠ topoFiltered := by
  have := List.of_mem_filter h
  simpa using this

/-- The purge keeps every entry whose state is not topoFiltered. -/
theorem mem_purgeTopoFiltered_of_mem (fs : FilterMap) (kv : String × filterType)
    (h : kv ∈ fs) (hv : kv.2 ≠ topoFiltered) : kv ∈ purgeTopoFiltered fs := by
  exact List.mem_filter.mpr ⟨h, by simpa using hv⟩

/-- The filteredServers component written by one downtime-record step, when
both the start and the end timestamps parse and the record has not yet
ended: regardless of how the created/update timestamps and the
class/severity strings parse, the filter map is the one computed by the
active-downtime check. -/
theorem processTopoDowntime_fst (pt : String → Option Int) (now : Int)
    (st : FilterMap × DowntimeMap) (d : TopoDowntime) (s e : Int)
    (hs : pt d.StartTime = some s) (he : pt d.EndTime = some e) (hgt : e > now) :
    (processTopoDowntime pt now st d).1 =
      (if s < now then
        (if (lookupStr st.1 d.ResourceName).isSome
            && ((lookupStr st.1 d.ResourceName).getD "" != tempAllowed) then st.1
         else insertStr st.1 d.ResourceName topoFiltered)
       else st.1) := by
  unfold processTopoDowntime
  simp only [hs, he, if_pos hgt]
  cases pt d.CreatedTime <;> cases pt d.UpdateTime <;>
    cases parseDowntimeClass d.Class <;> cases parseDowntimeSeverity d.Severity <;> rfl

/-- A record that is not currently active never changes the filteredServers
map. -/
theorem processTopoDowntime_fst_of_inactive (pt : String → Option Int) (now : Int)
    (st : FilterMap × DowntimeMap) (d : TopoDowntime)
    (h : ¬ activeRecord pt now d) :
    (processTopoDowntime pt now st d).1 = st.1 := by
  cases hs : pt d.StartTime with
  | none =>
    unfold processTopoDowntime
    simp only [hs]
  | some s =>
    cases he : pt d.EndTime with
    | none =>
      unfold processTopoDowntime
      simp only [hs, he]
    | some e =>
      by_cases hgt : e > now
      · have hlt : ¬ s < now := fun hlt => h ⟨s, e, hs, he, hgt, hlt⟩
        rw [processTopoDowntime_fst pt now st d s e hs he hgt, if_neg hlt]
      · unfold processTopoDowntime
        simp only [hs, he, if_neg hgt]

/-- Folding the record loop over a feed with no currently-active record
leaves the filteredServers map untouched. -/
theorem foldl_processTopoDowntime_fst (pt : String → Option Int) (now : Int)
    (l : List TopoDowntime) :
    ∀ acc : FilterMap × DowntimeMap, (∀ d ∈ l, ¬ activeRecord pt now d) →
      (l.foldl (processTopoDowntime pt now) acc).1 = acc.1 := by
  induction l with
  | nil => intro acc _; rfl
  | cons d rest ih =>
    intro acc h
    rw [List.foldl_cons,
      ih (processTopoDowntime pt now acc d) (fun x hx => h x (List.mem_cons_of_mem _ hx)),
      processTopoDowntime_fst_of_inactive pt now acc d (h d (List.mem_cons_self _ _))]

/-- C3: a topology downtime import first purges all topoFiltered entries;
importing a feed with no currently-active downtime leaves the registry with
no topoFiltered entry at all, while entries from other sources survive. -/
theorem updateDowntime_no_active_purges_topoFiltered
    (pt : String → Option Int) (now : Int) (info : TopoDowntimeInfo) (st : DirectorState)
    (hinactive : ∀ d ∈ info.CurrentDowntimes ++ info.FutureDowntimes, ¬ activeRecord pt now d) :
    (updateDowntimeFromTopologyCore pt now info st).filteredServers
      = purgeTopoFiltered st.filteredServers
    ∧ (∀ kv ∈ (updateDowntimeFromTopologyCore pt now info st).filteredServers, kv.2 ≠ topoFiltered)
    ∧ (∀ kv ∈ st.filteredServers, kv.2 ≠ topoFiltered →
        kv ∈ (updateDowntimeFromTopologyCore pt now info st).filteredServers) := by
  have hfs : (updateDowntimeFromTopologyCore pt now info st).filteredServers
      = purgeTopoFiltered st.filteredServers :=
    foldl_processTopoDowntime_fst pt now (info.CurrentDowntimes ++ info.FutureDowntimes)
      (purgeTopoFiltered st.filteredServers, []) hinactive
  refine ⟨hfs, ?_, ?_⟩
  · intro kv hkv
    rw [hfs] at hkv
    exact mem_purgeTopoFiltered _ _ hkv
  · intro kv hkv hne
    rw [hfs]
    exact mem_purgeTopoFiltered_of_mem _ _ hkv hne

/-- C3 witness: importing an empty feed over a registry holding one
permanent and one topology entry leaves exactly the permanent entry. -/
theorem updateDowntime_no_active_purges_topoFiltered_witness :
    (updateDowntimeFromTopologyCore (fun _ => none) 0 ⟨[], []⟩
        { serverAds := [],
          filteredServers := [("a", permFiltered), ("b", topoFiltered)],
          topologyDowntimes := [] }).filteredServers
      = [("a", permFiltered)] := by
  exact (updateDowntime_no_active_purges_topoFiltered (fun _ => none) 0 ⟨[], []⟩
    { serverAds := [],
      filteredServers := [("a", permFiltered), ("b", topoFiltered)],
      topologyDowntimes := [] } (by simp)).1.trans (by decide)

/-- C2 amended: a currently-active topology downtime for a server whose
filter entry is temp_allowed overwrites the entry with topo_filtered, so
after the import checkFilter reports the server as excluded with reason
topo_filtered. -/
theorem topoDowntime_overwrites_tempAllowed
    (pt : String → Option Int) (now s e : Int) (st : DirectorState) (d : TopoDowntime)
    (hallow : lookupStr st.filteredServers d.ResourceName = some tempAllowed)
    (hs : pt d.StartTime = some s) (hslt : s < now)
    (he : pt d.EndTime = some e) (hegt : e > now) :
    checkFilter (updateDowntimeFromTopologyCore pt now ⟨[d], []⟩ st).filteredServers d.ResourceName
      = (true, topoFiltered) := by
  have hpurge : lookupStr (purgeTopoFiltered st.filteredServers) d.ResourceName = some tempAllowed :=
    lookupStr_purgeTopoFiltered _ _ _ hallow (by decide)
  have hfold : (updateDowntimeFromTopologyCore pt now ⟨[d], []⟩ st).filteredServers
      = insertStr (purgeTopoFiltered st.filteredServers) d.ResourceName topoFiltered := by
    show (List.foldl (processTopoDowntime pt now)
      (purgeTopoFiltered st.filteredServers, []) ([d] ++ [])).1 = _
    rw [List.append_nil, List.foldl_cons, List.foldl_nil,
      processTopoDowntime_fst pt now _ d s e hs he hegt]
    rw [if_pos hslt]
    simp [hpurge]
  rw [hfold, checkFilter_of_lookup _ _ topoFiltered (lookupStr_insertStr_self _ _ _)]
  decide

/-- C2 counterexample: with filteredServers = [("srv", temp_allowed)] and a
currently-active, fully-parseable downtime record for "srv", the import
leaves checkFilter reporting "srv" as excluded — not, as claimed, as still
allowed. -/
theorem topoDowntime_tempAllowed_cex :
    checkFilter
      (updateDowntimeFromTopologyCore
        (fun t => if t = "Dec 31, 2023 10:00 AM UTC" then some 0
          else if t = "Jun 1, 2024 10:00 AM UTC" then some 100
          else if t = "Dec 30, 2023 09:00 AM UTC" then some (-10) else none)
        50
        ⟨[{ ResourceName := "srv",
            StartTime := "Dec 31, 2023 10:00 AM UTC",
            EndTime := "Jun 1, 2024 10:00 AM UTC",
            CreatedTime := "Dec 30, 2023 09:00 AM UTC",
            UpdateTime := "Dec 30, 2023 09:00 AM UTC",
            Class := "SCHEDULED",
            Severity := "Outage",
            Description := "scheduled maintenance" }], []⟩
        { serverAds := [], filteredServers := [("srv", tempAllowed)], topologyDowntimes := [] }).filteredServers
      "srv"
      = (true, topoFiltered) := by
  decide

/-- C2 witness: the amended statement applied at a concrete state and
record. -/
theorem topoDowntime_overwrites_tempAllowed_witness :
    checkFilter
      (updateDowntimeFromTopologyCore
        (fun t => if t = "s" then some 0 else if t = "e" then some 20 else none)
        10
        ⟨[{ ResourceName := "x", StartTime := "s", EndTime := "e",
            CreatedTime := "c", UpdateTime := "u", Class := "SCHEDULED",
            Severity := "Outage", Description := "" }], []⟩
        { serverAds := [], filteredServers := [("x", tempAllowed)], topologyDowntimes := [] }).filteredServers
      "x"
      = (true, topoFiltered) := by
  exact topoDowntime_overwrites_tempAllowed
    (fun t => if t = "s" then some 0 else if t = "e" then some 20 else none)
    10 0 20
    { serverAds := [], filteredServers := [("x", tempAllowed)], topologyDowntimes := [] }
    { ResourceName := "x", StartTime := "s", EndTime := "e",
      CreatedTime := "c", UpdateTime := "u", Class := "SCHEDULED",
      Severity := "Outage", Description := "" }
    (by decide) (by decide) (by decide) (by decide) (by decide)

/-- C6 amended: a start- or end-timestamp parse failure skips the record
with no state change at all; a created- or update-timestamp parse failure
contributes no entry to the downtime table (though the topo_filtered entry
of a currently-active record has already been written before those
timestamps are parsed). -/
theorem downtime_timestamp_parse_failure_skips
    (pt : String → Option Int) (now : Int) (st : FilterMap × DowntimeMap) (d : TopoDowntime) :
    (pt d.StartTime = none → processTopoDowntime pt now st d = st)
    ∧ (∀ s, pt d.StartTime = some s → pt d.EndTime = none →
        processTopoDowntime pt now st d = st)
    ∧ ((pt d.CreatedTime = none ∨ pt d.UpdateTime = none) →
        (processTopoDowntime pt now st d).2 = st.2) := by
  refine ⟨?_, ?_, ?_⟩
  · intro h
    unfold processTopoDowntime
    simp only [h]
  · intro s hs he
    unfold processTopoDowntime
    simp only [hs, he]
  · intro h
    cases hs : pt d.StartTime with
    | none =>
      unfold processTopoDowntime
      simp only [hs]
    | some s =>
      cases he : pt d.EndTime with
      | none =>
        unfold processTopoDowntime
        simp only [hs, he]
      | some e =>
        by_cases hgt : e > now
        · rcases h with hc | hu
          · unfold processTopoDowntime
            simp only [hs, he, if_pos hgt, hc]
          · cases hc : pt d.CreatedTime with
            | none =>
              unfold processTopoDowntime
              simp only [hs, he, if_pos hgt, hc]
            | some c =>
              unfold processTopoDowntime
              simp only [hs, he, if_pos hgt, hc, hu]
        · unfold processTopoDowntime
          simp only [hs, he, if_neg hgt]

/-- C6 counterexample: a record with parseable start/end times placing it in
a currently-active downtime but a garbled created time is skipped from the
downtime table, yet its topo_filtered entry HAS been set — contradicting the
claim that no filter entry is set for the server. -/
theorem createdTime_parse_failure_sets_filter_cex :
    (updateDowntimeFromTopologyCore
        (fun t => if t = "Dec 31, 2023 10:00 AM UTC" then some 0
          else if t = "Jun 1, 2024 10:00 AM UTC" then some 100 else none)
        50
        ⟨[{ ResourceName := "srv",
            StartTime := "Dec 31, 2023 10:00 AM UTC",
            EndTime := "Jun 1, 2024 10:00 AM UTC",
            CreatedTime := "garbled",
            UpdateTime := "Dec 31, 2023 10:00 AM UTC",
            Class := "SCHEDULED",
            Severity := "Outage",
            Description := "" }], []⟩
        { serverAds := [], filteredServers := [], topologyDowntimes := [] }).filteredServers
      = [("srv", topoFiltered)]
    ∧ (updateDowntimeFromTopologyCore
        (fun t => if t = "Dec 31, 2023 10:00 AM UTC" then some 0
          else if t = "Jun 1, 2024 10:00 AM UTC" then some 100 else none)
        50
        ⟨[{ ResourceName := "srv",
            StartTime := "Dec 31, 2023 10:00 AM UTC",
            EndTime := "Jun 1, 2024 10:00 AM UTC",
            CreatedTime := "garbled",
            UpdateTime := "Dec 31, 2023 10:00 AM UTC",
            Class := "SCHEDULED",
            Severity := "Outage",
            Description := "" }], []⟩
        { serverAds := [], filteredServers := [], topologyDowntimes := [] }).topologyDowntimes
      = [] := by
  exact ⟨by decide, by decide⟩

/-- C6 witness: the three amended cases applied at concrete records. -/
theorem downtime_timestamp_parse_failure_skips_witness :
    processTopoDowntime (fun t => if t = "ok" then some 0 else none) 50
        ([("x", permFiltered)], [])
        { ResourceName := "a", StartTime := "bad", EndTime := "ok",
          CreatedTime := "ok", UpdateTime := "ok", Class := "SCHEDULED",
          Severity := "Outage", Description := "" }
      = ([("x", permFiltered)], [])
    ∧ processTopoDowntime (fun t => if t = "ok" then some 0 else none) 50
        ([("x", permFiltered)], [])
        { ResourceName := "a", StartTime := "ok", EndTime := "bad",
          CreatedTime := "ok", UpdateTime := "ok", Class := "SCHEDULED",
          Severity := "Outage", Description := "" }
      = ([("x", permFiltered)], [])
    ∧ (processTopoDowntime
        (fun t => if t = "s" then some 0 else if t = "e" then some 100 else none) 50
        ([], [])
        { ResourceName := "a", StartTime := "s", EndTime := "e",
          CreatedTime := "bad", UpdateTime := "bad", Class := "SCHEDULED",
          Severity := "Outage", Description := "" }).2
      = [] := by
  exact ⟨(downtime_timestamp_parse_failure_skips (fun t => if t = "ok" then some 0 else none) 50
      ([("x", permFiltered)], [])
      { ResourceName := "a", StartTime := "bad", EndTime := "ok",
        CreatedTime := "ok", UpdateTime := "ok", Class := "SCHEDULED",
        Severity := "Outage", Description := "" }).1 (by decide),
    (downtime_timestamp_parse_failure_skips (fun t => if t = "ok" then some 0 else none) 50
      ([("x", permFiltered)], [])
      { ResourceName := "a", StartTime := "ok", EndTime := "bad",
        CreatedTime := "ok", UpdateTime := "ok", Class := "SCHEDULED",
        Severity := "Outage", Description := "" }).2.1 0 (by decide) (by decide),
    (downtime_timestamp_parse_failure_skips
      (fun t => if t = "s" then some 0 else if t = "e" then some 100 else none) 50
      ([], [])
      { ResourceName := "a", StartTime := "s", EndTime := "e",
        CreatedTime := "bad", UpdateTime := "bad", Class := "SCHEDULED",
        Severity := "Outage", Description := "" }).2.2 (Or.inl (by decide))⟩

/-- Inserting a fresh key appends the binding at the end. -/
theorem insertStr_eq_append {α : Type} (m : List (String × α)) (key : String) (v : α)
    (h : lookupStr m key = none) : insertStr m key v = m ++ [(key, v)] := by
  induction m with
  | nil => rfl
  | cons kv rest ih =>
    obtain ⟨k1, w⟩ := kv
    rw [lookupStr] at h
    by_cases hk : k1 = key
    · rw [if_pos hk] at h
      exact absurd h (by simp)
    · rw [if_neg hk] at h
      simp [insertStr, hk, ih h]

/-- countLabel over a cons cell. -/
theorem countLabel_cons (key : String) (w : Advertisement) (rest : AdMap)
    (l : String × String × String) :
    countLabel ((key, w) :: rest) l
      = countLabel rest l + (if adLabels w = l then 1 else 0) := by
  unfold countLabel
  rw [List.filter_cons]
  by_cases h : adLabels w = l
  · simp [h, Nat.add_comm]
  · simp [h]

/-- countLabel over appending a single binding. -/
theorem countLabel_append (store : AdMap) (key : String) (ad : Advertisement)
    (l : String × String × String) :
    countLabel (store ++ [(key, ad)]) l
      = countLabel store l + (if adLabels ad = l then 1 else 0) := by
  induction store with
  | nil => rw [List.nil_append, countLabel_cons]
  | cons kv rest ih =>
    obtain ⟨k1, w⟩ := kv
    rw [List.cons_append, countLabel_cons, countLabel_cons, ih, Nat.add_right_comm]

/-- Removing the binding that lookup finds removes exactly its label
contribution from countLabel. -/
theorem countLabel_erase (store : AdMap) (key : String) (ad : Advertisement)
    (l : String × String × String) (h : lookupStr store key = some ad) :
    countLabel store l = countLabel (eraseStr store key) l + (if adLabels ad = l then 1 else 0) := by
  induction store with
  | nil => simp [lookupStr] at h
  | cons kv rest ih =>
    obtain ⟨k1, w⟩ := kv
    rw [lookupStr] at h
    by_cases hk : k1 = key
    · rw [if_pos hk] at h
      obtain rfl : w = ad := by injection h
      have herase : eraseStr ((k1, w) :: rest) key = rest := by
        simp only [eraseStr, if_pos hk]
      rw [countLabel_cons, herase, Nat.add_comm]
    · rw [if_neg hk] at h
      have herase : eraseStr ((k1, w) :: rest) key = (k1, w) :: eraseStr rest key := by
        simp only [eraseStr, if_neg hk]
      rw [herase, countLabel_cons, countLabel_cons, ih h, Nat.add_right_comm]

/-- C10: the hooks registered by hookServerAdsCache keep the
pelican_director_server_count gauge consistent with the serverAds store:
after any well-formed sequence of insertion and eviction events starting
from a consistent state, the gauge at each label triple equals the number of
stored advertisements with that triple. -/
theorem serverAdsCache_gauge_matches_store (events : List CacheEvent) (st : MetricState)
    (hinv : ∀ l, st.gauge l = (countLabel st.store l : Int))
    (hwf : wfEvents st events) :
    ∀ l, (serverCountRun st events).gauge l
      = (countLabel (serverCountRun st events).store l : Int) := by
  induction events generalizing st with
  | nil => exact hinv
  | cons e rest ih =>
    obtain ⟨hwf1, hwf2⟩ := hwf
    show ∀ l, (serverCountRun (serverCountStep st e) rest).gauge l
      = (countLabel (serverCountRun (serverCountStep st e) rest).store l : Int)
    refine ih (serverCountStep st e) ?_ hwf2
    intro l
    cases e with
    | insertAd key ad =>
      have hnone : lookupStr st.store key = none := hwf1
      have hstep : serverCountStep st (.insertAd key ad)
          = { store := insertStr st.store key ad, gauge := gaugeInc st.gauge (adLabels ad) } := by
        simp only [serverCountStep]
        rw [hnone]
      rw [hstep]
      show gaugeInc st.gauge (adLabels ad) l = (countLabel (insertStr st.store key ad) l : Int)
      rw [insertStr_eq_append st.store key ad hnone, countLabel_append]
      unfold gaugeInc
      by_cases hl : l = adLabels ad
      · rw [if_pos hl, hinv l, hl, if_pos rfl]
        push_cast
        ring
      · rw [if_neg hl, hinv l, if_neg (fun hx => hl hx.symm)]
        push_cast
        ring
    | evictAd key =>
      cases hlk : lookupStr st.store key with
      | none =>
        have hstep : serverCountStep st (.evictAd key) = st := by
          simp only [serverCountStep]
          rw [hlk]
        rw [hstep]
        exact hinv l
      | some ad =>
        have hstep : serverCountStep st (.evictAd key)
            = { store := eraseStr st.store key, gauge := gaugeDec st.gauge (adLabels ad) } := by
          simp only [serverCountStep]
          rw [hlk]
        rw [hstep]
        show gaugeDec st.gauge (adLabels ad) l = (countLabel (eraseStr st.store key) l : Int)
        unfold gaugeDec
        have hcount := countLabel_erase st.store key ad l hlk
        by_cases hl : l = adLabels ad
        · rw [if_pos hl, hinv l, hcount, hl, if_pos rfl]
          push_cast
          ring
        · rw [if_neg hl, hinv l, hcount, if_neg (fun hx => hl hx.symm)]
          push_cast
          ring

/-- C10 witness: inserting then evicting one ad over an empty store keeps
the gauge at the stored count, evaluated at the ad's own label triple. -/
theorem serverAdsCache_gauge_matches_store_witness :
    (serverCountRun stEmpty evsO1).gauge ("o1", "Origin", "false")
      = (countLabel (serverCountRun stEmpty evsO1).store ("o1", "Origin", "false") : Int) := by
  exact serverAdsCache_gauge_matches_store evsO1 stEmpty (fun _ => rfl)
    ⟨rfl, trivial, trivial⟩ ("o1", "Origin", "false")

end Pelican
